import Mathlib

/-!
Verification development for the abuse/spam comment-moderation engine
(`src/filter.py`, `src/spam_detection.py`, `src/main.py`).

The Python code is shallowly embedded: texts are `String`/`List Char`,
the regular-expression fragments actually occurring in the source are
embedded as explicit character-class patterns with word-boundary,
start/end anchors and Kleene quantifiers over classes, and the database
is an explicit list of comment records.  ASCII semantics are used for
`\w`, `\s`, case folding and `re.IGNORECASE` (all texts handled by the
claims are ASCII, and the Python patterns and lexicon are lowercase
ASCII).  `difflib.SequenceMatcher.ratio` is an external library
function; the spam detector is therefore parametrised by the similarity
oracle `simf`, and concrete instantiations use the exact rational
values `ratio` returns on the concrete strings involved.
-/

namespace Moderation

/-- ASCII word character, Python `\w` (on ASCII input). -/
def isWordChar (c : Char) : Bool := c.isAlphanum || c == '_'

/-- ASCII whitespace, Python `\s` (on ASCII input). -/
def isSpaceChar (c : Char) : Bool :=
  c == ' ' || c == '\t' || c == '\n' || c == '\r' || c == '\x0b' || c == '\x0c'

/-- Python `str.strip` on a character list. -/
def trimChars (t : List Char) : List Char :=
  ((t.dropWhile isSpaceChar).reverse.dropWhile isSpaceChar).reverse

/-- Python `str.strip` on a string. -/
def trimS (s : String) : String := ⟨trimChars s.data⟩

/-- Python `str.lower` on a string (ASCII). -/
def lowerS (s : String) : String := ⟨s.data.map Char.toLower⟩

/-- Python `text.lower().strip()`, the normalisation used throughout
`filter.py` and `spam_detection.py`. -/
def normS (s : String) : String := trimS (lowerS s)

/-- One element of an embedded regular expression: a character class
matched once (`one`), one-or-more times (`plus`), zero-or-more times
(`star`), a word-boundary assertion `\b` (`bdd`), the start anchor `^`
(`bos`) and the end anchor `$` (`eos`, Python semantics: end of string
or just before a final newline). -/
inductive PatElem where
  | one  (p : Char → Bool)
  | plus (p : Char → Bool)
  | star (p : Char → Bool)
  | bdd
  | bos
  | eos

/-- Word-char status of the character preceding the current position
(`none` at the start of the text). -/
def prevWord (o : Option Char) : Bool :=
  match o with
  | some c => isWordChar c
  | none => false

/-- Word-char status of the character at the current position. -/
def headWord (s : List Char) : Bool :=
  match s with
  | c :: _ => isWordChar c
  | [] => false

/-- Fuel-indexed matcher kernel (structural recursion on the fuel so
that the kernel can evaluate it).  Every recursive call removes a
pattern element or consumes a text character, so a fuel of
`ps.length + s.length + 1` can never run out (the `plus` self-call
keeps the pattern but consumes a character; all other calls shorten
the pattern). -/
def matchEndsF : Nat → List PatElem → Option Char → List Char → List Nat
  | 0, _, _, _ => []
  | _ + 1, [], _, _ => [0]
  | f + 1, .bdd :: ps, prev, s =>
      if prevWord prev != headWord s then matchEndsF f ps prev s else []
  | f + 1, .bos :: ps, prev, s =>
      if prev.isNone then matchEndsF f ps prev s else []
  | f + 1, .eos :: ps, prev, s =>
      if s.isEmpty || s == ['\n'] then matchEndsF f ps prev s else []
  | _ + 1, .one _ :: _, _, [] => []
  | f + 1, .one p :: ps, _, c :: rest =>
      if p c then (matchEndsF f ps (some c) rest).map (· + 1) else []
  | _ + 1, .plus _ :: _, _, [] => []
  | f + 1, .plus p :: ps, _, c :: rest =>
      if p c then
        (matchEndsF f ps (some c) rest).map (· + 1) ++
          (matchEndsF f (.plus p :: ps) (some c) rest).map (· + 1)
      else []
  | f + 1, .star p :: ps, prev, s =>
      matchEndsF f ps prev s ++
        (match s with
         | [] => []
         | c :: rest =>
             if p c then (matchEndsF f (.star p :: ps) (some c) rest).map (· + 1) else [])

/-- All lengths of text consumed by a successful match of the pattern
against a prefix of `s`; `prev` is the character just before `s` in the
full text (for `\b` and `^`/`$` assertions).  Mirrors the existential
semantics of `re.search` restricted to the pattern forms occurring in
the source. -/
def matchEnds (ps : List PatElem) (prev : Option Char) (s : List Char) : List Nat :=
  matchEndsF (ps.length + s.length + 1) ps prev s

/-- Character preceding position `i` of `t`, if any. -/
def prevAt (t : List Char) (i : Nat) : Option Char :=
  match i with
  | 0 => none
  | j + 1 => t.get? j

/-- Python `\b`: the word-char status changes at position `i`. -/
def boundaryAt (t : List Char) (i : Nat) : Bool :=
  prevWord (prevAt t i) != headWord (t.drop i)

/-- Python `re.search` for a pattern with no outer `\b`: some match
starting anywhere. -/
def searchAny (pat : List PatElem) (t : List Char) : Bool :=
  (List.range (t.length + 1)).any fun i =>
    !(matchEnds pat (prevAt t i) (t.drop i)).isEmpty

/-- Python `re.search` for a pattern wrapped in `\b ... \b`: some match
whose two ends both lie on word boundaries. -/
def searchBddB (pat : List PatElem) (t : List Char) : Bool :=
  (List.range (t.length + 1)).any fun i =>
    boundaryAt t i &&
      (matchEnds pat (prevAt t i) (t.drop i)).any fun L => boundaryAt t (i + L)

/-- Literal string pattern. -/
def lit (s : String) : List PatElem := s.data.map fun c => .one (· == c)

/-- Character-class over an explicit character list. -/
def ccSet (l : List Char) : Char → Bool := fun c => l.contains c

/-- Pattern `\s*`. -/
def sp0 : PatElem := .star isSpaceChar

/-- Pattern `\s+`. -/
def sp1 : PatElem := .plus isSpaceChar

/-- Pattern `.*` (no DOTALL: any character except newline). -/
def dotStar : PatElem := .star (fun c => c != '\n')

/-- Pattern `\W*`. -/
def nwStar : PatElem := .star (fun c => !isWordChar c)

/-- Pattern `\S+`. -/
def nsPlus : PatElem := .plus (fun c => !isSpaceChar c)

/-- Pattern `\S*`. -/
def nsStar : PatElem := .star (fun c => !isSpaceChar c)

/-- An embedded Python regex: a disjunction of alternative sequences
(alternation and optional groups are expanded into alternatives). -/
def RxAlts : Type := List (List PatElem)

/-- Test of an embedded regex, Python `re.search(...) is not None`. -/
def matchRx (rx : RxAlts) (t : List Char) : Bool := rx.any (searchAny · t)

/-! ## Rational constants

Written as explicit numerator/denominator structure literals so that
the kernel can evaluate comparisons on them (`Rat` division does not
reduce definitionally). -/

/-- The confidence constant `0.95` of decision rule 1. -/
def conf_095 : ℚ := ⟨19, 20, by decide, by decide⟩

/-- The confidence constant `0.3` of decision rule 2. -/
def conf_03 : ℚ := ⟨3, 10, by decide, by decide⟩

/-- The confidence constant `0.4` of decision rule 3. -/
def conf_04 : ℚ := ⟨2, 5, by decide, by decide⟩

/-- The confidence constant `0.8` of decision rule 4. -/
def conf_08 : ℚ := ⟨4, 5, by decide, by decide⟩

/-- The confidence constant `0.6` of decision rule 5. -/
def conf_06 : ℚ := ⟨3, 5, by decide, by decide⟩

/-- The similarity threshold `0.85` of `detect_spam`. -/
def simThresh : ℚ := ⟨17, 20, by decide, by decide⟩

/-! ## filter.py : lexicon and matching strategies -/

/-- Built-in default word list of `load_abusive` in `filter.py`
(the `abusive_words.txt` resource is absent from the source tree, so
the `FileNotFoundError` fallback applies). -/
def abusive_words : List String :=
  ["stupid", "idiot", "fuck", "hate", "dumb", "shit", "damn", "asshole", "bitch", "moron"]

/-- The `highly_abusive_words` list of `filter.py`. -/
def highly_abusive_words : List String := ["asshole", "bitch", "moron", "idiot"]

/-- Method 1 pattern: `\b` + word + `\b` (word-boundary literal match). -/
def exactPat (w : String) : List PatElem := lit w

/-- Method 2 pattern: `\b` + each character one-or-more times + `\b`. -/
def elongPat (w : String) : List PatElem := w.data.map fun c => .plus (· == c)

/-- The leetspeak/masking substitution classes of method 3 in
`filter.py` (`substitutions.get(char, f'[{char}*#]')` for alphabetic
characters). -/
def substClass (c : Char) : Char → Bool :=
  if c == 'a' then ccSet ['a', '@', '4', '*', '#']
  else if c == 'e' then ccSet ['e', '3', '*', '#']
  else if c == 'i' then ccSet ['i', '1', '!', '*', '#']
  else if c == 'o' then ccSet ['o', '0', '*', '#']
  else if c == 's' then ccSet ['s', '$', '5', '*', '#']
  else if c == 'b' then ccSet ['b', '6', '*', '#']
  else if c == 'g' then ccSet ['g', '9', '*', '#']
  else if c == 'l' then ccSet ['l', '1', '*', '#']
  else if c == 't' then ccSet ['t', '7', '*', '#']
  else if c.isAlpha then ccSet [c, '*', '#']
  else (· == c)

/-- Method 3 pattern: `\b` + substitution class per character + `\b`. -/
def substPat (w : String) : List PatElem := w.data.map fun c => .one (substClass c)

/-- Method 4 first pattern: `firstChar \*+ lastChar` (no `\b` in the
source). -/
def astPat1 (w : String) : List PatElem :=
  [.one (· == w.data.headD ' '), .plus (· == '*'), .one (· == w.data.getLastD ' ')]

/-- Method 4 second pattern: `firstChar secondChar \*+ lastChar`
(no `\b` in the source). -/
def astPat2 (w : String) : List PatElem :=
  [.one (· == w.data.headD ' '), .one (· == w.data.getD 1 ' '),
   .plus (· == '*'), .one (· == w.data.getLastD ' ')]

/-- Method 5 pattern: `\b` + characters separated by `\s*` + `\b`. -/
def spacedPat (w : String) : List PatElem :=
  match w.data with
  | [] => []
  | c :: rest => .one (· == c) :: rest.flatMap fun d => [sp0, .one (· == d)]

/-- Method 1 (exact word-boundary match) on the lowercased text. -/
def exactDetect (w : String) (tl : List Char) : Bool := searchBddB (exactPat w) tl

/-- Method 2 (repeated characters) on the lowercased text. -/
def elongDetect (w : String) (tl : List Char) : Bool := searchBddB (elongPat w) tl

/-- Method 3 (character substitutions) on the lowercased text. -/
def substDetect (w : String) (tl : List Char) : Bool := searchBddB (substPat w) tl

/-- Method 5 (spaced-out words) on the lowercased text. -/
def spacedDetect (w : String) (tl : List Char) : Bool := searchBddB (spacedPat w) tl

/-- Method 4 (asterisk masking), first variant, on the lowercased
text: searched without word boundaries, as in the source. -/
def astDetect1 (w : String) (tl : List Char) : Bool := searchAny (astPat1 w) tl

/-- Method 4 (asterisk masking), second variant. -/
def astDetect2 (w : String) (tl : List Char) : Bool := searchAny (astPat2 w) tl

/-- The `exact_matches` list built by method 1 of
`is_abusive_with_auto_review`. -/
def exact_matches (tl : List Char) : List String :=
  abusive_words.filter (exactDetect · tl)

/-- The `repeated_chars` list built by method 2 (its loop skips words
already in `exact_matches`). -/
def repeated_chars (tl : List Char) : List String :=
  abusive_words.filter fun w =>
    elongDetect w tl && !(exact_matches tl).contains w

/-- The `substitution_matches` list built by method 3 (skips words in
`exact_matches` or `repeated_chars`). -/
def substitution_matches (tl : List Char) : List String :=
  abusive_words.filter fun w =>
    substDetect w tl && !(exact_matches tl).contains w && !(repeated_chars tl).contains w

/-- The `asterisk_matches` list built by method 4 (each of the two
patterns appends the word unless it is in `exact_matches`; words of
length `< 3` are skipped, the second pattern needs length `≥ 4`). -/
def asterisk_matches (tl : List Char) : List String :=
  abusive_words.flatMap fun w =>
    if 3 ≤ w.length then
      (if astDetect1 w tl && !(exact_matches tl).contains w then [w] else []) ++
        (if 4 ≤ w.length && astDetect2 w tl && !(exact_matches tl).contains w then [w] else [])
    else []

/-- The `spaced_matches` list built by method 5 (skips words in
`exact_matches`). -/
def spaced_matches (tl : List Char) : List String :=
  abusive_words.filter fun w =>
    spacedDetect w tl && !(exact_matches tl).contains w

/-- The deduplicated `all_matches` list
(`list(set(exact + repeated + substitution + spaced + asterisk))`),
before the "hell" post-filter.  Python's `set` iteration order is not
semantically relevant; membership and length are. -/
def all_matches_raw (tl : List Char) : List String :=
  (exact_matches tl ++ repeated_chars tl ++ substitution_matches tl ++
    spaced_matches tl ++ asterisk_matches tl).dedup

/-- The regex `\bgo\s*to\s*hell\b` of the "hell" post-filter. -/
def goToHellRx : RxAlts :=
  [[.bdd] ++ lit "go" ++ [sp0] ++ lit "to" ++ [sp0] ++ lit "hell" ++ [.bdd]]

/-- The regex `\b(burn|rot)\s*in\s*hell\b` of the "hell" post-filter. -/
def burnRotInHellRx : RxAlts :=
  [[.bdd] ++ lit "burn" ++ [sp0] ++ lit "in" ++ [sp0] ++ lit "hell" ++ [.bdd],
   [.bdd] ++ lit "rot" ++ [sp0] ++ lit "in" ++ [sp0] ++ lit "hell" ++ [.bdd]]

/-- `all_matches` after the "hell" post-filter of
`is_abusive_with_auto_review`: "hell" is removed unless a
"go to hell" / "burn in hell" / "rot in hell" phrase occurs. -/
def all_matches_hell (tl : List Char) : List String :=
  if (all_matches_raw tl).contains "hell" && !matchRx goToHellRx tl &&
      !matchRx burnRotInHellRx tl then
    (all_matches_raw tl).erase "hell"
  else all_matches_raw tl

/-! ## filter.py : context analysis -/

/-- Apostrophe character (U+0027), used in several context patterns. -/
def apos : Char := Char.ofNat 39

/-- Apostrophe as a one-character string. -/
def aposS : String := String.singleton apos

/-- Substring containment, Python `sub in t`. -/
def containsSub (t sub : List Char) : Bool :=
  (List.range (t.length + 1)).any fun i => sub.isPrefixOf (t.drop i)

/-- Expand a regex of shape `pre (w1|w2|...) post` into alternatives. -/
def altsOf (pre : List PatElem) (ws : List String) (post : List PatElem) : RxAlts :=
  ws.map fun w => pre ++ lit w ++ post

/-- The `positive_context_patterns` list of `filter.py` (six regexes,
no word boundaries in the source). -/
def positive_context_rx : List RxAlts :=
  [altsOf (lit "fucking ")
      ["awesome", "brilliant", "amazing", "great", "good", "cool", "nice", "perfect",
        "excellent"] [],
   altsOf (lit "damn ") ["good", "great", "awesome", "cool", "nice", "impressive"] [],
   (["ton", "load"].flatMap fun a =>
     ["good", "great", "awesome", "fun"].map fun b =>
       lit ("shit " ++ a ++ " of " ++ b)),
   altsOf (lit "badass ") ["in a good way", "move", "skill", "talent"] [],
   altsOf (lit "stupid ") ["simple", "easy", "obvious", "clear"] [],
   altsOf (lit "stupidly ") ["brilliant", "good", "simple", "easy", "awesome"] []]

/-- The `clearly_abusive_patterns` list of `filter.py`, one embedded
regex per source pattern, in source order. -/
def clearly_abusive_rx : List RxAlts :=
  [(["are", aposS ++ "re"].flatMap fun a =>
     ["stupid", "idiot", "dumb", "fucking", "an asshole", "a bitch", "shit"].map fun b =>
       [.bdd] ++ lit ("you " ++ a ++ " " ++ b) ++ [.bdd]),
   (["stupid", "dumb", "fucking"].flatMap fun a =>
     ["idiot", "moron", "bitch", "asshole"].map fun b =>
       [.bdd] ++ lit ("you " ++ a ++ " " ++ b) ++ [.bdd]),
   [[.bdd] ++ lit "fuck you" ++ [.bdd]],
   [[.bdd] ++ lit "f" ++ [nwStar, .plus (· == '*'), nwStar] ++ lit "k" ++ [sp1] ++
     lit "you" ++ [.bdd]],
   [[.bdd] ++ lit "go" ++ [sp0] ++ lit "to" ++ [sp0] ++ lit "hell" ++ [.bdd]],
   [[.bdd] ++ lit "go" ++ [sp1] ++ lit "to" ++ [sp1] ++ lit "hell" ++ [.bdd]],
   altsOf [.bdd] ["burn", "rot"] ([sp0] ++ lit "in" ++ [sp0] ++ lit "hell" ++ [.bdd]),
   [[.bdd] ++ lit "go" ++ [sp0] ++ lit "die" ++ [.bdd]],
   [[.bdd] ++ lit "drop" ++ [sp0] ++ lit "dead" ++ [.bdd]],
   [[.bdd] ++ lit "kill yourself" ++ [.bdd]],
   [[.bdd] ++ lit "kys" ++ [.bdd]],
   [[.bdd] ++ lit "hate you" ++ [.bdd]],
   altsOf ([.bdd] ++ lit "piece of ") ["shit", "crap"] [.bdd],
   [[.bdd] ++ lit "you asshole" ++ [.bdd]],
   altsOf ([.bdd] ++ lit "you ") ["are an", aposS ++ "re an"] (lit " asshole" ++ [.bdd]),
   altsOf ([.bdd] ++ lit "stupid ") ["bitch", "asshole", "idiot", "moron"] [.bdd],
   altsOf ([.bdd] ++ lit "fucking ") ["idiot", "moron", "stupid", "dumb"] [.bdd],
   (["you ", ""].flatMap fun a =>
     ["stupid", "dumb", "fucking", "bitch", "asshole", "idiot"].map fun b =>
       [.bdd] ++ lit "shut up" ++ [.bdd, dotStar, .bdd] ++ lit (a ++ b) ++ [.bdd]),
   [[.bdd] ++ lit "you suck" ++ [.bdd]],
   altsOf ([.bdd] ++ lit "die" ++ [.bdd, dotStar, .bdd]) ["bitch", "asshole", "idiot"]
     [.bdd],
   (["get", "go"].flatMap fun a =>
     ["lost", "away"].flatMap fun b =>
       ["idiot", "moron", "stupid"].map fun c =>
         [.bdd] ++ lit a ++ [sp0] ++ lit b ++ [.bdd, dotStar, .bdd] ++ lit c ++ [.bdd]),
   [[.bdd] ++ lit "go" ++ [sp0] ++ lit "f**k" ++ [sp0] ++ lit "yourself" ++ [.bdd]],
   [[.bdd] ++ lit "g" ++ [sp0] ++ lit "o" ++ [sp0] ++ lit "t" ++ [sp0] ++ lit "o" ++
     [sp0] ++ lit "h" ++ [sp0] ++ lit "e" ++ [sp0] ++ lit "l" ++ [sp0] ++ lit "l" ++
     [.bdd]],
   altsOf ([.bdd] ++ lit "are" ++ [sp1] ++ lit "you" ++ [sp1])
     ["stupid", "dumb", "idiot", "moron"] [.bdd]]

/-- The `sarcastic_indicators` list of `analyze_context`. -/
def sarcastic_rx : List RxAlts :=
  [altsOf ([.bdd] ++ lit "what the ") ["hell", "fuck"] [.bdd],
   altsOf ([.bdd] ++ lit "why the ") ["hell", "fuck"] [.bdd],
   altsOf ([.bdd] ++ lit "are you ") ["stupid", "dumb", "idiot", "moron"] [.bdd],
   altsOf ([.bdd] ++ lit "how ") ["stupid", "dumb"] [.bdd]]

/-- The four `direct_attack_patterns` regexes built for a highly
abusive word `w` inside `analyze_context`: `\byou (are )?w\b`,
`\byou're (a |an )?w\b`, `\bw$`, `^w\b`. -/
def direct_attack_rx (w : String) : List RxAlts :=
  [altsOf ([.bdd] ++ lit "you ") ["", "are "] (lit w ++ [.bdd]),
   altsOf ([.bdd] ++ lit ("you" ++ aposS ++ "re ")) ["", "a ", "an "] (lit w ++ [.bdd]),
   [[.bdd] ++ lit w ++ [.eos]],
   [[.bos] ++ lit w ++ [.bdd]]]

/-- The dictionary returned by `analyze_context`. -/
structure ContextScore where
  positive_context : Nat
  clearly_abusive : Nat
  highly_abusive : Nat
  politeness_score : Nat
  likely_false_positive : Bool
  deriving DecidableEq, Repr

/-- Embedding of `analyze_context` from `filter.py`. -/
def analyze_context (text : String) : ContextScore :=
  let tl := (normS text).data
  let positive := (positive_context_rx.filter (matchRx · tl)).length
  let clearly := 2 * (clearly_abusive_rx.filter (matchRx · tl)).length
  let highly := 3 *
    (highly_abusive_words.flatMap fun w =>
      (direct_attack_rx w).filter (matchRx · tl)).length
  let is_question := (trimChars text.data).getLast? == some '?'
  let is_sarcastic := sarcastic_rx.any (matchRx · tl)
  let has_please := containsSub tl "please".data
  let has_thanks :=
    ["thanks", "thank you", "thx"].any fun s => containsSub tl s.data
  let polite_q := is_question && !is_sarcastic && clearly == 0
  let politeness := (if polite_q then 1 else 0) + (if has_please then 1 else 0) +
    (if has_thanks then 1 else 0)
  { positive_context := positive
    clearly_abusive := clearly
    highly_abusive := highly
    politeness_score := politeness
    likely_false_positive := 0 < positive && clearly == 0 && highly == 0 }

/-! ## filter.py : decision policy -/

/-- The verdict dictionary of `is_abusive_with_auto_review` (the
`context_analysis` debug key present in some branches is not
modelled). -/
structure AbuseVerdict where
  is_abusive : Nat
  confidence : ℚ
  flagged_words : List String
  auto_action : String
  reason : String
  deriving DecidableEq, Repr

/-- The final `all_matches` list of `is_abusive_with_auto_review`:
the five matching strategies with the "hell" post-filter, then the
`phrase_abuse` sentinel when no literal word matched but a clearly or
highly abusive phrase fired. -/
def all_matches_final (text : String) : List String :=
  let tl := (normS text).data
  let am := all_matches_hell tl
  let ctx := analyze_context text
  if am.isEmpty && (0 < ctx.clearly_abusive || 0 < ctx.highly_abusive) then
    ["phrase_abuse"]
  else am

/-- Embedding of `is_abusive_with_auto_review` from `filter.py`. -/
def is_abusive_with_auto_review (text : String) : AbuseVerdict :=
  if text.data.isEmpty || (trimChars text.data).isEmpty then
    ⟨0, 0, [], "approve", "empty_text"⟩
  else
    let ctx := analyze_context text
    let am := all_matches_final text
    if am.isEmpty then ⟨0, 0, [], "approve", "no_abusive_words"⟩
    else if 0 < ctx.clearly_abusive || 0 < ctx.highly_abusive || 3 ≤ am.length then
      ⟨1, conf_095, am, "keep_hidden", "clearly_abusive_pattern_or_highly_abusive_words"⟩
    else if ctx.likely_false_positive then
      ⟨0, conf_03, am, "auto_approve", "positive_context_detected"⟩
    else if am.length == 1 && 0 < ctx.politeness_score then
      ⟨0, conf_04, am, "auto_approve", "polite_tone_detected"⟩
    else if am.length == 1 && am.any (highly_abusive_words.contains ·) then
      ⟨1, conf_08, am, "keep_hidden", "high_risk_word_detected"⟩
    else ⟨1, conf_06, am, "human_review_needed", "uncertain_context"⟩

/-! ## spam_detection.py

`calculate_similarity` delegates to `difflib.SequenceMatcher.ratio`
(Python standard library); the detector is parametrised by that
similarity oracle `simf`, applied after the case-fold/trim
normalisation done by `calculate_similarity` itself. -/

/-- Embedding of `calculate_similarity`: normalise both texts
(`lower().strip()`) and apply the `SequenceMatcher.ratio` oracle. -/
def calculate_similarity (simf : String → String → ℚ) (t1 t2 : String) : ℚ :=
  simf (normS t1) (normS t2)

/-- The `promotional_keywords` list of `is_promotional_content`. -/
def promotional_keywords : List String :=
  ["check out my", "visit my", "click here", "buy now",
   "follow me", "subscribe to", "check my profile", "dm me",
   "whatsapp", "telegram", "link in bio", "follow for follow",
   "check this out", "visit here", "my website", "my channel",
   "discount", "limited offer", "earn money", "work from home"]

/-- The URL regex of `is_promotional_content`:
`http[s]?://\S+|www\.\S+|\S+\.(com|net|org|io|co)\S*`. -/
def urlRx : RxAlts :=
  [lit "http://" ++ [nsPlus],
   lit "https://" ++ [nsPlus],
   lit "www." ++ [nsPlus]] ++
  (["com", "net", "org", "io", "co"].map fun tld =>
    [nsPlus] ++ lit ("." ++ tld) ++ [nsStar])

/-- Embedding of `is_promotional_content` from `spam_detection.py`. -/
def is_promotional_content (text : String) : Bool :=
  let tl := (lowerS text).data
  promotional_keywords.any (fun k => containsSub tl k.data) || matchRx urlRx tl

/-- A persisted comment row (`models.Comment`), restricted to the
fields read or written by the moderation flow. -/
structure CommentRec where
  id : Nat
  text : String
  status : String
  is_abusive : Nat
  is_spam : Nat
  confidence_score : Nat
  flagged_words : Option String
  auto_review_action : Option String
  auto_review_reason : Option String
  spam_reasons : Option String
  spam_confidence : Nat
  user_id : Nat
  post_id : Nat
  deriving DecidableEq, Repr

/-- The verdict dictionary of `detect_spam`.  The `hide_all` and
`similar_comment_ids` keys are present only in the two `auto_hide`
branches of the source; absence is modelled by `none`. -/
structure SpamVerdict where
  is_spam : Bool
  reasons : List String
  confidence : Nat
  action : String
  hide_all : Option Bool
  similar_comment_ids : Option (List Nat)
  message : String
  deriving DecidableEq, Repr

/-- The history query of `detect_spam`: all comments by this user on
this post whose status is not "deleted", ordered by recency (the
database list is kept in insertion order, so recency order is its
reverse). -/
def historyFor (db : List CommentRec) (uid pid : Nat) : List CommentRec :=
  (db.filter fun c => c.user_id == uid && c.post_id == pid && c.status != "deleted").reverse

/-- The counting loop of `detect_spam`: exact repeats
(`similarity == 1.0`), similar repeats (`elif similarity >= 0.85`) and
the collected `similar_comment_ids`, over a comment list. -/
def repStats (simf : String → String → ℚ) (textClean : String) :
    List CommentRec → Nat × Nat × List Nat
  | [] => (0, 0, [])
  | c :: rest =>
      let r := repStats simf textClean rest
      let sim := calculate_similarity simf textClean c.text
      if sim = 1 then (r.1 + 1, r.2.1, c.id :: r.2.2)
      else if simThresh ≤ sim then (r.1, r.2.1 + 1, c.id :: r.2.2)
      else r

/-- `total_repetitions = max(exact_count, similar_count)` for a given
submission against the stored history. -/
def totalRepetitions (simf : String → String → ℚ) (text : String) (uid pid : Nat)
    (db : List CommentRec) : Nat :=
  let r := repStats simf (trimS text) (historyFor db uid pid)
  max r.1 r.2.1

/-- The `similar_comment_ids` collected for a given submission. -/
def collectedIds (simf : String → String → ℚ) (text : String) (uid pid : Nat)
    (db : List CommentRec) : List Nat :=
  (repStats simf (trimS text) (historyFor db uid pid)).2.2

/-- Embedding of `detect_spam` from `spam_detection.py`. -/
def detect_spam (simf : String → String → ℚ) (text : String) (uid pid : Nat)
    (db : List CommentRec) : SpamVerdict :=
  let text_clean := trimS text
  let r := repStats simf text_clean (historyFor db uid pid)
  let promo := is_promotional_content text_clean
  let total := max r.1 r.2.1
  if promo && 4 ≤ total then
    { is_spam := true, reasons := ["promotional_repetition_same_post"], confidence := 95,
      action := "auto_hide", hide_all := some true, similar_comment_ids := some r.2.2,
      message := "🚫 Spam Detected! Promotional content repeated " ++
        toString (total + 1) ++
        " times on this post. All promotional comments have been hidden." }
  else if 6 ≤ total then
    { is_spam := true, reasons := ["excessive_repetition_same_post"], confidence := 100,
      action := "auto_hide", hide_all := some false, similar_comment_ids := some [],
      message := "🚫 Spam Detected! Comment repeated " ++ toString (total + 1) ++
        " times on this post. Recent repetitive comments have been hidden." }
  else if promo && 3 ≤ total then
    { is_spam := false, reasons := ["promotional_warning"], confidence := 50,
      action := "warning", hide_all := none, similar_comment_ids := none,
      message := "⚠️ Warning: You've posted similar promotional content " ++
        toString (total + 1) ++
        " times on this post. One more repetition will result in all promotional comments being hidden." }
  else if 5 ≤ total then
    { is_spam := false, reasons := ["repetition_warning"], confidence := 50,
      action := "warning", hide_all := none, similar_comment_ids := none,
      message := "⚠️ Warning: You've posted similar comments " ++ toString (total + 1) ++
        " times on this post. Further repetition will result in spam detection." }
  else
    { is_spam := false, reasons := [], confidence := 0, action := "allow",
      hide_all := none, similar_comment_ids := none, message := "No spam detected" }

/-! ## main.py : the create_comment orchestration -/

/-- HTTP-level outcome of a comment submission. -/
inductive Resp where
  | notFound
  | validationError (detail : String)
  | ok (commentId : Nat)
  deriving DecidableEq, Repr

/-- Store state seen by `create_comment`: the comment table, the set of
existing post ids, and the next comment id the database will assign. -/
structure ModState where
  comments : List CommentRec
  posts : List Nat
  nextId : Nat
  deriving Repr

/-- Result of a `create_comment` call.  `abuseInvoked` and
`spamInvoked` record whether `is_abusive_with_auto_review` and
`detect_spam` were reached. -/
structure PostOutcome where
  db : List CommentRec
  response : Resp
  abuseInvoked : Bool
  spamInvoked : Bool
  nextId : Nat
  deriving Repr

/-- `int(confidence * 100)` (all confidence constants are
non-negative multiples of `1/100`). -/
def conf100 (q : ℚ) : Nat := (q * 100).floor.toNat

/-- Python `",".join(...)`. -/
def joinComma (l : List String) : String := String.intercalate "," l

/-- The bulk-hide loop of `create_comment`: every comment whose id is
in `similar_comment_ids` gets `status = "hidden"` and `is_spam = 1`. -/
def bulkHide (ids : List Nat) (db : List CommentRec) : List CommentRec :=
  db.map fun c =>
    if ids.contains c.id then { c with status := "hidden", is_spam := 1 } else c

/-- Embedding of the `create_comment` endpoint of `main.py` (the
asynchronous `check_and_handle_user_abuse` call mutates only user
rows, never comment rows, and is not modelled). -/
def create_comment (simf : String → String → ℚ) (text : String) (uid pid : Nat)
    (st : ModState) : PostOutcome :=
  if !st.posts.contains pid then
    ⟨st.comments, .notFound, false, false, st.nextId⟩
  else if (trimS text).length == 0 then
    ⟨st.comments, .validationError "Comment cannot be empty", false, false, st.nextId⟩
  else if 1000 < text.length then
    ⟨st.comments, .validationError "Comment too long (max 1000 characters)", false, false,
      st.nextId⟩
  else
    let review := is_abusive_with_auto_review text
    if review.is_abusive == 1 then
      let status :=
        if review.auto_action == "approve" || review.auto_action == "auto_approve" then
          "approved"
        else if review.auto_action == "keep_hidden" then "hidden" else "pending_review"
      let c : CommentRec :=
        { id := st.nextId, text := text, status := status,
          is_abusive := review.is_abusive, is_spam := 0,
          confidence_score := conf100 review.confidence,
          flagged_words :=
            if review.flagged_words.isEmpty then none
            else some (joinComma review.flagged_words),
          auto_review_action := some review.auto_action,
          auto_review_reason := some review.reason,
          spam_reasons := none, spam_confidence := 0, user_id := uid, post_id := pid }
      ⟨st.comments ++ [c], .ok st.nextId, true, false, st.nextId + 1⟩
    else
      let spam := detect_spam simf text uid pid st.comments
      if spam.is_spam then
        let db1 :=
          if spam.hide_all.getD false && !(spam.similar_comment_ids.getD []).isEmpty then
            bulkHide (spam.similar_comment_ids.getD []) st.comments
          else st.comments
        let c : CommentRec :=
          { id := st.nextId, text := text, status := "hidden",
            is_abusive := 0, is_spam := 1, confidence_score := 0, flagged_words := none,
            auto_review_action := some "auto_hide_spam",
            auto_review_reason := some spam.message,
            spam_reasons := some (joinComma spam.reasons),
            spam_confidence := spam.confidence, user_id := uid, post_id := pid }
        ⟨db1 ++ [c], .ok st.nextId, true, true, st.nextId + 1⟩
      else if spam.action == "warning" then
        let c : CommentRec :=
          { id := st.nextId, text := text, status := "approved",
            is_abusive := 0, is_spam := 0, confidence_score := 0, flagged_words := none,
            auto_review_action := some "warning_spam",
            auto_review_reason := some spam.message,
            spam_reasons := some (joinComma spam.reasons),
            spam_confidence := spam.confidence, user_id := uid, post_id := pid }
        ⟨st.comments ++ [c], .ok st.nextId, true, true, st.nextId + 1⟩
      else
        let c : CommentRec :=
          { id := st.nextId, text := text, status := "approved",
            is_abusive := 0, is_spam := 0, confidence_score := 0, flagged_words := none,
            auto_review_action := some "approve",
            auto_review_reason := some "clean_comment",
            spam_reasons := none, spam_confidence := 0, user_id := uid, post_id := pid }
        ⟨st.comments ++ [c], .ok st.nextId, true, true, st.nextId + 1⟩

/-! ## Shared auxiliary definitions for the claim theorems -/

/-- The exclusivity invariant of the spec: no persisted comment has
both `isAbusive = 1` and `isSpam = 1`. -/
def exclusiveB (db : List CommentRec) : Bool :=
  db.all fun c => !(c.is_abusive == 1 && c.is_spam == 1)

/-- Similarity oracle for histories in which every compared pair of
normalised texts is identical: `SequenceMatcher.ratio` returns exactly
`1.0` on equal strings (`2n/2n`) — the value on unequal strings is
never used by the statements instantiating this oracle. -/
def simOne : String → String → ℚ := fun a b => if a = b then 1 else 0

/-- Comment-record builder for concrete test databases (user 1,
post 1; fields not written by the builder keep the `models.py`
defaults). -/
def mkC (i : Nat) (t : String) (st : String) (ab sp : Nat) : CommentRec :=
  { id := i, text := t, status := st, is_abusive := ab, is_spam := sp,
    confidence_score := 0, flagged_words := none, auto_review_action := none,
    auto_review_reason := none, spam_reasons := none, spam_confidence := 0,
    user_id := 1, post_id := 1 }

/-- Abusive prior text of the C1 scenario: trailing "idiot" makes the
direct-attack pattern `\bidiot$` fire, so the classifier hides it as
abusive. -/
def tOld : String := "buy now my great product friends idiot"

/-- Promotional, non-abusive text of the C1 scenario (contains the
"buy now" keyword and no flagged word). -/
def tNew : String := "buy now my great product friends idiom"

/-- Similarity oracle of the C1 scenario, returning exactly the
`SequenceMatcher.ratio` values of the pairs that occur: `1` on equal
normalised texts, and `37/38 = 2·37/76` for `tNew` against `tOld`
(their longest matching block is their common 37-character prefix and
nothing matches in the one remaining character). -/
def simCx : String → String → ℚ := fun a b => if a = b then 1 else ⟨37, 38, by decide, by decide⟩

/-- C1 scenario database: four stored copies of the promotional text
and one stored abusive comment, all by user 1 on post 1.  This is the
state the moderation flow itself produces when `tOld` is submitted
first (abuse path: status "hidden", `is_spam = 0`) and `tNew` is then
submitted four times (allow, allow, allow, warning — all persisted
"approved" with both flags 0). -/
def db0 : List CommentRec :=
  [mkC 1 tOld "hidden" 1 0, mkC 2 tNew "approved" 0 0, mkC 3 tNew "approved" 0 0,
   mkC 4 tNew "approved" 0 0, mkC 5 tNew "approved" 0 0]

/-- C1 scenario store state. -/
def st0 : ModState := { comments := db0, posts := [1], nextId := 6 }

end Moderation

namespace Moderation

/-! ## Auxiliary lemmas -/

/-- Exact-repeat count of the counting loop: exactly the comments at
similarity `1.0`. -/
theorem repStats_fst (simf : String → String → ℚ) (tc : String) (l : List CommentRec) :
    (repStats simf tc l).1 =
      l.countP fun c => decide (calculate_similarity simf tc c.text = 1) := by
  induction l with
  | nil => rfl
  | cons c rest ih =>
      simp only [repStats, List.countP_cons, decide_eq_true_eq]
      split_ifs with h1 h2 <;> simp_all

/-- Similar-repeat count of the counting loop: the comments at
similarity `≥ 0.85` that are not exact repeats (`elif`). -/
theorem repStats_snd (simf : String → String → ℚ) (tc : String) (l : List CommentRec) :
    (repStats simf tc l).2.1 =
      l.countP fun c => decide (calculate_similarity simf tc c.text ≠ 1 ∧
        simThresh ≤ calculate_similarity simf tc c.text) := by
  induction l with
  | nil => rfl
  | cons c rest ih =>
      simp only [repStats, List.countP_cons, decide_eq_true_eq]
      split_ifs with h1 h2 <;> simp_all

/-- Collected ids of the counting loop: the ids of every counted
repeat, in traversal order. -/
theorem repStats_ids (simf : String → String → ℚ) (tc : String) (l : List CommentRec) :
    (repStats simf tc l).2.2 =
      (l.filter fun c => decide (calculate_similarity simf tc c.text = 1 ∨
        simThresh ≤ calculate_similarity simf tc c.text)).map (·.id) := by
  induction l with
  | nil => rfl
  | cons c rest ih =>
      simp only [repStats, List.filter_cons, decide_eq_true_eq]
      split_ifs with h1 h2 <;> simp_all
      all_goals linarith

/-- Membership in a conditionally empty list. -/
theorem mem_ite_nil {α : Type} {c : Prop} [Decidable c] {a : α} {l : List α} :
    a ∈ (if c then l else []) ↔ c ∧ a ∈ l := by
  split_ifs with h <;> simp [h]


/-- An `auto_hide` spam verdict always has `is_spam = true`. -/
theorem spam_action_auto_hide (simf : String → String → ℚ) (text : String) (uid pid : Nat)
    (db : List CommentRec)
    (h : (detect_spam simf text uid pid db).action = "auto_hide") :
    (detect_spam simf text uid pid db).is_spam = true := by
  simp only [detect_spam] at *
  split_ifs at * <;> simp_all

/-- An `auto_hide` verdict arises only from the promotional rule
(`totalRepetitions ≥ 4`) or the plain-repetition rule (`≥ 6`). -/
theorem spam_auto_hide_cases (simf : String → String → ℚ) (text : String) (uid pid : Nat)
    (db : List CommentRec)
    (h : (detect_spam simf text uid pid db).action = "auto_hide") :
    (is_promotional_content (trimS text) = true ∧
        4 ≤ totalRepetitions simf text uid pid db) ∨
      6 ≤ totalRepetitions simf text uid pid db := by
  simp only [detect_spam, totalRepetitions] at *
  split_ifs at h with h1 h2 h3 h4
  · left; simpa using h1
  · right; exact h2
  · simp at h
  · simp at h
  · simp at h

/-- Counting over the filtered, recency-ordered history equals counting
over the whole table with the history condition conjoined. -/
theorem hist_countP (p : CommentRec → Bool) (db : List CommentRec) (uid pid : Nat) :
    (historyFor db uid pid).countP p =
      db.countP fun c =>
        p c && (c.user_id == uid && c.post_id == pid && c.status != "deleted") := by
  simp [historyFor, List.countP_reverse, List.countP_filter]

/-- The bulk-hide rewrite never decreases a count whose predicate is
preserved by the status/is_spam update. -/
theorem countP_bulkHide_le (db : List CommentRec) (ids : List Nat) (q : CommentRec → Bool)
    (hq : ∀ c, q c = true → q { c with status := "hidden", is_spam := 1 } = true) :
    db.countP q ≤ (bulkHide ids db).countP q := by
  simp only [bulkHide, List.countP_map]
  refine List.countP_mono_left fun c _ hc => ?_
  simp only [Function.comp_apply]
  split_ifs with hid
  · exact hq c hc
  · exact hc

/-- A promotional submission with at least four counted repetitions is
auto-hidden. -/
theorem spam_action_of_promo_four (simf : String → String → ℚ) (text : String)
    (uid pid : Nat) (db : List CommentRec)
    (hp : is_promotional_content (trimS text) = true)
    (h : 4 ≤ totalRepetitions simf text uid pid db) :
    (detect_spam simf text uid pid db).action = "auto_hide" := by
  simp only [detect_spam, totalRepetitions] at *
  rw [if_pos (by simp only [Bool.and_eq_true, decide_eq_true_eq]; exact ⟨hp, h⟩)]

/-- A submission with at least six counted repetitions is auto-hidden. -/
theorem spam_action_of_six (simf : String → String → ℚ) (text : String)
    (uid pid : Nat) (db : List CommentRec)
    (h : 6 ≤ totalRepetitions simf text uid pid db) :
    (detect_spam simf text uid pid db).action = "auto_hide" := by
  simp only [detect_spam, totalRepetitions] at *
  split_ifs with g1 g2 <;> first | rfl | exact absurd h g2

/-! ## Claim theorems -/

/-- Claim C3 counterexample: `classifyAbuse("idiot")` does NOT return
`reason = high_risk_word_detected` with confidence `0.8`; the verdict
carries a different reason and confidence, so the claim as stated is
false on the code. -/
theorem c3_counterexample :
    (is_abusive_with_auto_review "idiot").reason ≠ "high_risk_word_detected" ∧
      (is_abusive_with_auto_review "idiot").confidence ≠ conf_08 := by
  decide

/-- Claim C3, amended: `classifyAbuse("idiot")` does return
`isAbusive = 1` and `action = keep_hidden`, but via rule 3, not
rule 6: the bare-word direct-attack patterns `\bidiot$` and `^idiot\b`
both fire, giving `highlyAbusiveScore = 6 > 0`, so the verdict is
`confidence = 0.95` with
`reason = clearly_abusive_pattern_or_highly_abusive_words`. -/
theorem c3_amended :
    is_abusive_with_auto_review "idiot" =
      ⟨1, conf_095, ["idiot"], "keep_hidden",
        "clearly_abusive_pattern_or_highly_abusive_words"⟩ ∧
      (analyze_context "idiot").highly_abusive = 6 := by
  decide

/-- Claim C4: with the built-in default lexicon (the
`abusive_words.txt` resource is absent from the source tree), no
lexicon word matches inside "fucking" at a word boundary, so
`classifyAbuse("This is fucking awesome!")` returns
`action = approve` with `reason = no_abusive_words` — not the
`auto_approve` / `positive_context_detected` verdict that the claim,
the spec and `filter.py`'s own `__main__` test table (which expects
`auto_approve` for this exact input) all state. -/
theorem c4_code_divergence :
    is_abusive_with_auto_review "This is fucking awesome!" =
      ⟨0, 0, [], "approve", "no_abusive_words"⟩ := by
  decide

/-- Claim C8 counterexample: an `allow` verdict of `detect_spam` does
not carry the `hide_all` and `similar_comment_ids` keys (modelled as
`none`), so not every verdict contains all seven fields. -/
theorem c8_counterexample :
    (detect_spam simOne "hi" 1 1 []).action = "allow" ∧
      (detect_spam simOne "hi" 1 1 []).hide_all = none ∧
      (detect_spam simOne "hi" 1 1 []).similar_comment_ids = none := by
  decide

/-- Claim C8, amended: a verdict of `detect_spam` carries the
`hideAll` and `similarCommentIds` fields exactly when its action is
`auto_hide`; `warning` and `allow` verdicts carry only the other five
fields. -/
theorem c8_amended (simf : String → String → ℚ) (text : String) (uid pid : Nat)
    (db : List CommentRec) :
    (detect_spam simf text uid pid db).hide_all.isSome =
        ((detect_spam simf text uid pid db).action == "auto_hide") ∧
      (detect_spam simf text uid pid db).similar_comment_ids.isSome =
        ((detect_spam simf text uid pid db).action == "auto_hide") := by
  simp only [detect_spam]
  split_ifs <;> exact ⟨rfl, rfl⟩

/-- Claim C5 counterexample: a stored comment whose similarity ratio
to the submission is `1.0` (hence `≥ 0.85`) is counted as an exact
repeat and NOT as a similar repeat (the source uses `elif`), so
"similar repeat iff ratio ≥ 0.85" fails: the claimed similar count is
1 but the computed one is 0. -/
theorem c5_counterexample :
    ((historyFor [mkC 1 "same text" "approved" 0 0] 1 1).countP fun c =>
        decide (simThresh ≤ calculate_similarity simOne (trimS "same text") c.text)) =
        1 ∧
      (repStats simOne (trimS "same text")
        (historyFor [mkC 1 "same text" "approved" 0 0] 1 1)).2.1 = 0 := by
  decide

/-- Claim C1 counterexample: starting from an exclusivity-respecting
database (one abusive hidden comment on `tOld`, four approved copies
of the promotional `tNew`, all states the flow itself produces — see
the conjuncts on the classifier verdicts), submitting `tNew` once more
triggers the promotional `hideAll` verdict, and the bulk-hide loop
stamps `is_spam = 1` on the stored `tOld` comment without checking
`is_abusive`, leaving a persisted comment with both flags set. -/
theorem c1_counterexample :
    exclusiveB db0 = true ∧
      (is_abusive_with_auto_review tOld).is_abusive = 1 ∧
      (is_abusive_with_auto_review tOld).auto_action = "keep_hidden" ∧
      (is_abusive_with_auto_review tNew).is_abusive = 0 ∧
      exclusiveB (create_comment simCx tNew 1 1 st0).db = false ∧
      ((create_comment simCx tNew 1 1 st0).db.any fun c =>
        c.id == 1 && c.is_abusive == 1 && c.is_spam == 1) = true := by
  decide

/-- Claim C5, amended: the counting loop of `detect_spam` counts a
prior comment as an exact repeat iff the normalised similarity ratio
equals `1.0`, as a similar repeat iff the ratio is `≥ 0.85` AND is not
`1.0` (source `elif`), collects the ids of every counted repeat, and
`totalRepetitions` is the maximum of the two counts. -/
theorem c5_amended (simf : String → String → ℚ) (text : String) (uid pid : Nat)
    (db : List CommentRec) :
    (repStats simf (trimS text) (historyFor db uid pid)).1 =
        (historyFor db uid pid).countP
          (fun c => decide (calculate_similarity simf (trimS text) c.text = 1)) ∧
      (repStats simf (trimS text) (historyFor db uid pid)).2.1 =
        (historyFor db uid pid).countP
          (fun c => decide (calculate_similarity simf (trimS text) c.text ≠ 1 ∧
            simThresh ≤ calculate_similarity simf (trimS text) c.text)) ∧
      (repStats simf (trimS text) (historyFor db uid pid)).2.2 =
        ((historyFor db uid pid).filter
          (fun c => decide (calculate_similarity simf (trimS text) c.text = 1 ∨
            simThresh ≤ calculate_similarity simf (trimS text) c.text))).map (·.id) ∧
      totalRepetitions simf text uid pid db =
        max (repStats simf (trimS text) (historyFor db uid pid)).1
          (repStats simf (trimS text) (historyFor db uid pid)).2.1 :=
  ⟨repStats_fst _ _ _, repStats_snd _ _ _, repStats_ids _ _ _, rfl⟩

/-- Claim C2: `detect_spam` follows the claimed strict precedence as a
function of the promotional flag and `totalRepetitions` — promotional
with `≥ 4` repetitions: spam, confidence 95, `auto_hide`,
`hideAll = true` with all collected ids; else `≥ 6` repetitions: spam,
confidence 100, `auto_hide`, `hideAll = false` with no ids; else
promotional with `≥ 3`: not spam, `warning`, confidence 50; else
`≥ 5`: not spam, `warning`, confidence 50; otherwise not spam,
`allow`, confidence 0. -/
theorem c2_precedence (simf : String → String → ℚ) (text : String) (uid pid : Nat)
    (db : List CommentRec) :
    (is_promotional_content (trimS text) = true →
      4 ≤ totalRepetitions simf text uid pid db →
      (detect_spam simf text uid pid db).is_spam = true ∧
        (detect_spam simf text uid pid db).confidence = 95 ∧
        (detect_spam simf text uid pid db).action = "auto_hide" ∧
        (detect_spam simf text uid pid db).hide_all = some true ∧
        (detect_spam simf text uid pid db).similar_comment_ids =
          some (collectedIds simf text uid pid db)) ∧
    (¬(is_promotional_content (trimS text) = true ∧
        4 ≤ totalRepetitions simf text uid pid db) →
      6 ≤ totalRepetitions simf text uid pid db →
      (detect_spam simf text uid pid db).is_spam = true ∧
        (detect_spam simf text uid pid db).confidence = 100 ∧
        (detect_spam simf text uid pid db).action = "auto_hide" ∧
        (detect_spam simf text uid pid db).hide_all = some false ∧
        (detect_spam simf text uid pid db).similar_comment_ids = some []) ∧
    (¬(is_promotional_content (trimS text) = true ∧
        4 ≤ totalRepetitions simf text uid pid db) →
      totalRepetitions simf text uid pid db < 6 →
      is_promotional_content (trimS text) = true →
      3 ≤ totalRepetitions simf text uid pid db →
      (detect_spam simf text uid pid db).is_spam = false ∧
        (detect_spam simf text uid pid db).action = "warning" ∧
        (detect_spam simf text uid pid db).confidence = 50) ∧
    (¬(is_promotional_content (trimS text) = true ∧
        4 ≤ totalRepetitions simf text uid pid db) →
      totalRepetitions simf text uid pid db < 6 →
      ¬(is_promotional_content (trimS text) = true ∧
        3 ≤ totalRepetitions simf text uid pid db) →
      5 ≤ totalRepetitions simf text uid pid db →
      (detect_spam simf text uid pid db).is_spam = false ∧
        (detect_spam simf text uid pid db).action = "warning" ∧
        (detect_spam simf text uid pid db).confidence = 50) ∧
    (¬(is_promotional_content (trimS text) = true ∧
        4 ≤ totalRepetitions simf text uid pid db) →
      totalRepetitions simf text uid pid db < 6 →
      ¬(is_promotional_content (trimS text) = true ∧
        3 ≤ totalRepetitions simf text uid pid db) →
      totalRepetitions simf text uid pid db < 5 →
      (detect_spam simf text uid pid db).is_spam = false ∧
        (detect_spam simf text uid pid db).action = "allow" ∧
        (detect_spam simf text uid pid db).confidence = 0) := by
  simp only [detect_spam, totalRepetitions, collectedIds]
  split_ifs
  all_goals refine ⟨?_, ?_, ?_, ?_, ?_⟩ <;> intros <;> simp_all <;> omega

/-- Witness for C2: its first rule, instantiated at a promotional text
repeated four times before submission. -/
theorem c2_precedence_witness :
    (detect_spam simOne "buy now great"
        1 1 [mkC 1 "buy now great" "approved" 0 0, mkC 2 "buy now great" "approved" 0 0,
          mkC 3 "buy now great" "approved" 0 0,
          mkC 4 "buy now great" "approved" 0 0]).is_spam = true ∧
      (detect_spam simOne "buy now great"
        1 1 [mkC 1 "buy now great" "approved" 0 0, mkC 2 "buy now great" "approved" 0 0,
          mkC 3 "buy now great" "approved" 0 0,
          mkC 4 "buy now great" "approved" 0 0]).action = "auto_hide" :=
  have h := (c2_precedence simOne "buy now great" 1 1
    [mkC 1 "buy now great" "approved" 0 0, mkC 2 "buy now great" "approved" 0 0,
      mkC 3 "buy now great" "approved" 0 0, mkC 4 "buy now great" "approved" 0 0]).1
    (by decide) (by decide)
  ⟨h.1, h.2.2.1⟩

/-- Claim C9: the deduplicated `all_matches` set, before the "hell"
post-filter, equals the union of the words each of the five strategies
detects on its own — the sequential exclusion of words found by
earlier strategies never changes the final content. -/
theorem c9_union (tl : List Char) (w : String) :
    w ∈ all_matches_raw tl ↔
      w ∈ abusive_words ∧
        (exactDetect w tl = true ∨ elongDetect w tl = true ∨ substDetect w tl = true ∨
          spacedDetect w tl = true ∨
          (3 ≤ w.length ∧ astDetect1 w tl = true) ∨
          (4 ≤ w.length ∧ astDetect2 w tl = true)) := by
  have hex : ∀ v : String, v ∈ exact_matches tl ↔
      v ∈ abusive_words ∧ exactDetect v tl = true := by
    intro v; simp [exact_matches, List.mem_filter]
  have hrep : ∀ v : String, v ∈ repeated_chars tl ↔
      v ∈ abusive_words ∧ elongDetect v tl = true ∧ ¬(v ∈ exact_matches tl) := by
    intro v
    simp [repeated_chars, List.mem_filter, List.elem_iff, Bool.and_eq_true, Bool.not_eq_true']
  have hsub : ∀ v : String, v ∈ substitution_matches tl ↔
      v ∈ abusive_words ∧ substDetect v tl = true ∧ ¬(v ∈ exact_matches tl) ∧
        ¬(v ∈ repeated_chars tl) := by
    intro v
    simp [substitution_matches, List.mem_filter, List.elem_iff, Bool.and_eq_true,
      Bool.not_eq_true']
    tauto
  have hsp : ∀ v : String, v ∈ spaced_matches tl ↔
      v ∈ abusive_words ∧ spacedDetect v tl = true ∧ ¬(v ∈ exact_matches tl) := by
    intro v
    simp [spaced_matches, List.mem_filter, List.elem_iff, Bool.and_eq_true,
      Bool.not_eq_true']
  have hast : ∀ v : String, v ∈ asterisk_matches tl ↔
      v ∈ abusive_words ∧ 3 ≤ v.length ∧ ¬(v ∈ exact_matches tl) ∧
        (astDetect1 v tl = true ∨ (4 ≤ v.length ∧ astDetect2 v tl = true)) := by
    intro v
    simp [asterisk_matches, List.mem_flatMap, mem_ite_nil, List.mem_append,
      List.elem_iff, Bool.and_eq_true, Bool.not_eq_true']
    constructor
    · rintro ⟨a, ha, h3, h⟩
      rcases h with ⟨⟨h1, hne⟩, rfl⟩ | ⟨⟨⟨h4, h2⟩, hne⟩, rfl⟩
      · exact ⟨ha, h3, hne, Or.inl h1⟩
      · exact ⟨ha, h3, hne, Or.inr ⟨h4, h2⟩⟩
    · rintro ⟨hw, h3, hne, h1 | ⟨h4, h2⟩⟩
      · exact ⟨v, hw, h3, Or.inl ⟨⟨h1, hne⟩, rfl⟩⟩
      · exact ⟨v, hw, h3, Or.inr ⟨⟨⟨h4, h2⟩, hne⟩, rfl⟩⟩
  simp only [all_matches_raw, List.mem_dedup, List.mem_append]
  constructor
  · rintro ((((hm | hm) | hm) | hm) | hm)
    · obtain ⟨hw, hd⟩ := (hex w).1 hm
      exact ⟨hw, Or.inl hd⟩
    · obtain ⟨hw, hd, -⟩ := (hrep w).1 hm
      exact ⟨hw, Or.inr (Or.inl hd)⟩
    · obtain ⟨hw, hd, -, -⟩ := (hsub w).1 hm
      exact ⟨hw, Or.inr (Or.inr (Or.inl hd))⟩
    · obtain ⟨hw, hd, -⟩ := (hsp w).1 hm
      exact ⟨hw, Or.inr (Or.inr (Or.inr (Or.inl hd)))⟩
    · obtain ⟨hw, h3, -, hd | ⟨h4, hd⟩⟩ := (hast w).1 hm
      · exact ⟨hw, Or.inr (Or.inr (Or.inr (Or.inr (Or.inl ⟨h3, hd⟩))))⟩
      · exact ⟨hw, Or.inr (Or.inr (Or.inr (Or.inr (Or.inr ⟨h4, hd⟩))))⟩
  · rintro ⟨hw, hE | hL | hS | hP | ⟨h3, hA⟩ | ⟨h4, hA⟩⟩
    · exact Or.inl (Or.inl (Or.inl (Or.inl ((hex w).2 ⟨hw, hE⟩))))
    · by_cases he : w ∈ exact_matches tl
      · exact Or.inl (Or.inl (Or.inl (Or.inl he)))
      · exact Or.inl (Or.inl (Or.inl (Or.inr ((hrep w).2 ⟨hw, hL, he⟩))))
    · by_cases he : w ∈ exact_matches tl
      · exact Or.inl (Or.inl (Or.inl (Or.inl he)))
      · by_cases hr : w ∈ repeated_chars tl
        · exact Or.inl (Or.inl (Or.inl (Or.inr hr)))
        · exact Or.inl (Or.inl (Or.inr ((hsub w).2 ⟨hw, hS, he, hr⟩)))
    · by_cases he : w ∈ exact_matches tl
      · exact Or.inl (Or.inl (Or.inl (Or.inl he)))
      · exact Or.inl (Or.inr ((hsp w).2 ⟨hw, hP, he⟩))
    · by_cases he : w ∈ exact_matches tl
      · exact Or.inl (Or.inl (Or.inl (Or.inl he)))
      · exact Or.inr ((hast w).2 ⟨hw, h3, he, Or.inl hA⟩)
    · by_cases he : w ∈ exact_matches tl
      · exact Or.inl (Or.inl (Or.inl (Or.inl he)))
      · exact Or.inr ((hast w).2 ⟨hw, by omega, he, Or.inr ⟨h4, hA⟩⟩)

/-- A word-bounded occurrence of a pattern: some match whose start and
end both lie on word boundaries of the text. -/
def boundedOcc (pat : List PatElem) (t : List Char) : Prop :=
  ∃ i, i ≤ t.length ∧ boundaryAt t i = true ∧
    ∃ L ∈ matchEnds pat (prevAt t i) (t.drop i), boundaryAt t (i + L) = true

/-- The boundary-checked search succeeds exactly on word-bounded
occurrences. -/
theorem searchBddB_iff (pat : List PatElem) (t : List Char) :
    searchBddB pat t = true ↔ boundedOcc pat t := by
  simp [searchBddB, boundedOcc, List.any_eq_true, List.mem_range, Nat.lt_succ_iff]

/-- Claim C6 counterexample: the asterisk-masking strategy's patterns
carry no word boundaries in the source; on the text "sf**kt" it
reports the word "fuck" although its only matching occurrence is
embedded between the word characters `s` and `t` — no word-bounded
occurrence of either asterisk pattern exists in that text. -/
theorem c6_counterexample :
    ("fuck" ∈ asterisk_matches ("sf**kt".data)) ∧
      ("fuck" ∈ all_matches_hell ("sf**kt".data)) ∧
      astDetect1 "fuck" ("sf**kt".data) = true ∧
      searchBddB (astPat1 "fuck") ("sf**kt".data) = false ∧
      searchBddB (astPat2 "fuck") ("sf**kt".data) = false := by
  decide

/-- Claim C6, amended: the exact, elongation, substitution and spacing
strategies only report words with a word-bounded matching occurrence
(their patterns are wrapped in `\b...\b`), and the whole matcher is
case-insensitive (texts equal up to ASCII case produce the same match
set); the asterisk-masking strategy, however, searches without word
boundaries and can report a word embedded inside a larger token. -/
theorem c6_amended (tl : List Char) (w : String) :
    (exactDetect w tl = true → boundedOcc (exactPat w) tl) ∧
      (elongDetect w tl = true → boundedOcc (elongPat w) tl) ∧
      (substDetect w tl = true → boundedOcc (substPat w) tl) ∧
      (spacedDetect w tl = true → boundedOcc (spacedPat w) tl) ∧
      (∀ s₁ s₂ : String, s₁.data.map Char.toLower = s₂.data.map Char.toLower →
        all_matches_hell ((normS s₁).data) = all_matches_hell ((normS s₂).data)) := by
  refine ⟨fun h => (searchBddB_iff _ _).1 h, fun h => (searchBddB_iff _ _).1 h,
    fun h => (searchBddB_iff _ _).1 h, fun h => (searchBddB_iff _ _).1 h,
    fun s₁ s₂ h => ?_⟩
  have hn : normS s₁ = normS s₂ := by
    simp only [normS, lowerS, trimS]
    exact congrArg (fun l => (⟨trimChars l⟩ : String)) h
  rw [hn]

/-- Witness for the amended C6: a word-bounded occurrence extracted
from an exact-strategy match. -/
theorem c6_amended_witness :
    boundedOcc (exactPat "stupid") ("this is stupid".data) :=
  (c6_amended ("this is stupid".data) "stupid").1 (by decide)

/-- Claim C7: for an existing post, an empty/whitespace-only or
over-1000-character submission yields a validation error response,
leaves the comment table unchanged, and invokes neither the abuse
classifier nor the spam detector. -/
theorem c7_validation (simf : String → String → ℚ) (text : String) (uid pid : Nat)
    (st : ModState)
    (hpost : st.posts.contains pid = true)
    (hbad : (trimS text).length = 0 ∨ 1000 < text.length) :
    (∃ d, (create_comment simf text uid pid st).response = Resp.validationError d) ∧
      (create_comment simf text uid pid st).db = st.comments ∧
      (create_comment simf text uid pid st).abuseInvoked = false ∧
      (create_comment simf text uid pid st).spamInvoked = false := by
  have hp : pid ∈ st.posts := by simpa using hpost
  by_cases h0 : (trimS text).length = 0
  · simp [create_comment, hp, h0]
  · have hlen : 1000 < text.length := hbad.resolve_left h0
    simp [create_comment, hp, h0, hlen]

/-- Witness for C7 at the empty submission on an existing post. -/
theorem c7_validation_witness :
    (∃ d, (create_comment simOne "" 1 1 (ModState.mk [] [1] 1)).response =
        Resp.validationError d) ∧
      (create_comment simOne "" 1 1 (ModState.mk [] [1] 1)).db =
        (ModState.mk [] [1] 1).comments ∧
      (create_comment simOne "" 1 1 (ModState.mk [] [1] 1)).abuseInvoked = false ∧
      (create_comment simOne "" 1 1 (ModState.mk [] [1] 1)).spamInvoked = false :=
  c7_validation simOne "" 1 1 (ModState.mk [] [1] 1) (by decide) (Or.inl (by decide))

/-- The classifier's `is_abusive` field is `0` whenever it is not `1`
(every branch returns a literal `0` or `1`). -/
theorem is_abusive_zero_of_ne_one (text : String)
    (h : (is_abusive_with_auto_review text).is_abusive ≠ 1) :
    (is_abusive_with_auto_review text).is_abusive = 0 := by
  simp only [is_abusive_with_auto_review] at *
  split_ifs at * <;> simp_all

/-- Claim C1, amended: every comment newly persisted by
`create_comment` respects the exclusivity — the abuse path stores
`is_spam = 0`, the spam/warning/clean paths store `is_abusive = 0` —
and a new comment is marked spam only when the abuse classifier found
no abuse.  (The counterexample shows the exclusivity does not extend
to previously stored comments touched by the bulk-hide loop.) -/
theorem c1_amended (simf : String → String → ℚ) (text : String) (uid pid : Nat)
    (st : ModState) (cid : Nat)
    (h : (create_comment simf text uid pid st).response = Resp.ok cid) :
    ∃ c, (create_comment simf text uid pid st).db.getLast? = some c ∧
      ¬(c.is_abusive = 1 ∧ c.is_spam = 1) ∧
      (c.is_spam = 1 → (is_abusive_with_auto_review text).is_abusive = 0) := by
  simp only [create_comment] at h ⊢
  split_ifs at h ⊢
  all_goals first
    | exact Resp.noConfusion h
    | (refine ⟨_, List.getLast?_concat _, by simp, ?_⟩
       intro hsp
       first
         | (exfalso; revert hsp; simp; done)
         | (apply is_abusive_zero_of_ne_one; simp_all))

/-- Witness for the amended C1 at a clean submission. -/
theorem c1_amended_witness :
    ∃ c, (create_comment simOne "hello" 1 1 (ModState.mk [] [1] 1)).db.getLast? =
        some c ∧
      ¬(c.is_abusive = 1 ∧ c.is_spam = 1) ∧
      (c.is_spam = 1 → (is_abusive_with_auto_review "hello").is_abusive = 0) :=
  c1_amended simOne "hello" 1 1 (ModState.mk [] [1] 1) 1 (by decide)

/-- Claim C10: the repetition query includes every prior comment by
the same user on the same post whose status is not "deleted" — hidden
and pending-review comments included — and therefore, once a
non-abusive submission of a text draws an `auto_hide` verdict, the
same text submitted again right after the resulting state change
yields a `totalRepetitions` at least as large and is again classified
`auto_hide` (the persisted comment has status "hidden", not "deleted",
and bulk-hide only moves statuses to "hidden"). -/
theorem c10_nondeleted_monotone (simf : String → String → ℚ) (text : String)
    (uid pid : Nat) (st : ModState)
    (habuse : (is_abusive_with_auto_review text).is_abusive ≠ 1)
    (hact : (detect_spam simf text uid pid st.comments).action = "auto_hide")
    (hpost : st.posts.contains pid = true)
    (hv1 : (trimS text).length ≠ 0)
    (hv2 : text.length ≤ 1000) :
    (∀ (db : List CommentRec), ∀ c ∈ db, c.user_id = uid → c.post_id = pid →
        c.status ≠ "deleted" → c ∈ historyFor db uid pid) ∧
      totalRepetitions simf text uid pid st.comments ≤
        totalRepetitions simf text uid pid (create_comment simf text uid pid st).db ∧
      (detect_spam simf text uid pid (create_comment simf text uid pid st).db).action =
        "auto_hide" := by
  have hspam : (detect_spam simf text uid pid st.comments).is_spam = true :=
    spam_action_auto_hide simf text uid pid st.comments hact
  obtain ⟨db1, newc, hdbe, hct, hcu, hcp, hcs, hdb1⟩ :
      ∃ db1 newc, (create_comment simf text uid pid st).db = db1 ++ [newc] ∧
        newc.text = text ∧ newc.user_id = uid ∧ newc.post_id = pid ∧
        newc.status = "hidden" ∧
        (db1 = st.comments ∨ ∃ ids, db1 = bulkHide ids st.comments) := by
    have hp : pid ∈ st.posts := by simpa using hpost
    simp only [create_comment]
    rw [if_neg (show ¬((!st.posts.contains pid) = true) by simp [hp]),
      if_neg (show ¬(((trimS text).length == 0) = true) by simpa using hv1),
      if_neg (show ¬(1000 < text.length) by omega),
      if_neg (show ¬(((is_abusive_with_auto_review text).is_abusive == 1) = true) by
        simpa using habuse),
      if_pos hspam]
    split_ifs with hh
    · refine ⟨bulkHide ((detect_spam simf text uid pid
          st.comments).similar_comment_ids.getD []) st.comments, _, rfl, rfl, rfl, rfl,
        rfl, Or.inr ⟨_, rfl⟩⟩
    · exact ⟨st.comments, _, rfl, rfl, rfl, rfl, rfl, Or.inl rfl⟩
  have hpresE : ∀ c : CommentRec,
      (decide (calculate_similarity simf (trimS text) c.text = 1) &&
        (c.user_id == uid && c.post_id == pid && c.status != "deleted")) = true →
      (decide (calculate_similarity simf (trimS text)
          ({ c with status := "hidden", is_spam := 1 } : CommentRec).text = 1) &&
        (({ c with status := "hidden", is_spam := 1 } : CommentRec).user_id == uid &&
          ({ c with status := "hidden", is_spam := 1 } : CommentRec).post_id == pid &&
          ({ c with status := "hidden", is_spam := 1 } : CommentRec).status !=
            "deleted")) = true := by
    intro c hc
    simp only [Bool.and_eq_true, decide_eq_true_eq] at hc ⊢
    exact ⟨hc.1, hc.2.1, by simp⟩
  have hpresS : ∀ c : CommentRec,
      (decide (calculate_similarity simf (trimS text) c.text ≠ 1 ∧
          simThresh ≤ calculate_similarity simf (trimS text) c.text) &&
        (c.user_id == uid && c.post_id == pid && c.status != "deleted")) = true →
      (decide (calculate_similarity simf (trimS text)
            ({ c with status := "hidden", is_spam := 1 } : CommentRec).text ≠ 1 ∧
          simThresh ≤ calculate_similarity simf (trimS text)
            ({ c with status := "hidden", is_spam := 1 } : CommentRec).text) &&
        (({ c with status := "hidden", is_spam := 1 } : CommentRec).user_id == uid &&
          ({ c with status := "hidden", is_spam := 1 } : CommentRec).post_id == pid &&
          ({ c with status := "hidden", is_spam := 1 } : CommentRec).status !=
            "deleted")) = true := by
    intro c hc
    simp only [Bool.and_eq_true, decide_eq_true_eq] at hc ⊢
    exact ⟨hc.1, hc.2.1, by simp⟩
  have heqE : ∀ db : List CommentRec,
      (repStats simf (trimS text) (historyFor db uid pid)).1 =
        db.countP fun c =>
          decide (calculate_similarity simf (trimS text) c.text = 1) &&
            (c.user_id == uid && c.post_id == pid && c.status != "deleted") := by
    intro db; rw [repStats_fst, hist_countP]
  have heqS : ∀ db : List CommentRec,
      (repStats simf (trimS text) (historyFor db uid pid)).2.1 =
        db.countP fun c =>
          decide (calculate_similarity simf (trimS text) c.text ≠ 1 ∧
            simThresh ≤ calculate_similarity simf (trimS text) c.text) &&
            (c.user_id == uid && c.post_id == pid && c.status != "deleted") := by
    intro db; rw [repStats_snd, hist_countP]
  have hmonoE :
      (repStats simf (trimS text) (historyFor st.comments uid pid)).1 ≤
        (repStats simf (trimS text) (historyFor (db1 ++ [newc]) uid pid)).1 := by
    rw [heqE, heqE, List.countP_append]
    refine le_trans ?_ (Nat.le_add_right _ _)
    rcases hdb1 with rfl | ⟨ids, rfl⟩
    · exact le_refl _
    · exact countP_bulkHide_le _ _ _ hpresE
  have hmonoS :
      (repStats simf (trimS text) (historyFor st.comments uid pid)).2.1 ≤
        (repStats simf (trimS text) (historyFor (db1 ++ [newc]) uid pid)).2.1 := by
    rw [heqS, heqS, List.countP_append]
    refine le_trans ?_ (Nat.le_add_right _ _)
    rcases hdb1 with rfl | ⟨ids, rfl⟩
    · exact le_refl _
    · exact countP_bulkHide_le _ _ _ hpresS
  have htot : totalRepetitions simf text uid pid st.comments ≤
      totalRepetitions simf text uid pid (create_comment simf text uid pid st).db := by
    rw [hdbe]
    simp only [totalRepetitions]
    exact max_le_max hmonoE hmonoS
  refine ⟨?_, htot, ?_⟩
  · intro db c hc h1 h2 h3
    simp [historyFor, List.mem_reverse, List.mem_filter, hc, h1, h2, h3]
  · rcases spam_auto_hide_cases simf text uid pid st.comments hact with ⟨hpromo, h4⟩ | h6
    · exact spam_action_of_promo_four simf text uid pid _ hpromo (le_trans h4 htot)
    · exact spam_action_of_six simf text uid pid _ (le_trans h6 htot)

/-- Witness for C10: six identical prior comments (one hidden, one
pending review) trigger the plain-repetition `auto_hide`, and
resubmitting the same text still yields `auto_hide`. -/
theorem c10_witness :
    (∀ (db : List CommentRec), ∀ c ∈ db, c.user_id = 1 → c.post_id = 1 →
        c.status ≠ "deleted" → c ∈ historyFor db 1 1) ∧
      totalRepetitions simOne "hello world" 1 1
          (ModState.mk [mkC 1 "hello world" "approved" 0 0,
            mkC 2 "hello world" "approved" 0 0, mkC 3 "hello world" "hidden" 0 0,
            mkC 4 "hello world" "approved" 0 0,
            mkC 5 "hello world" "pending_review" 0 0,
            mkC 6 "hello world" "approved" 0 0] [1] 7).comments ≤
        totalRepetitions simOne "hello world" 1 1
          (create_comment simOne "hello world" 1 1
            (ModState.mk [mkC 1 "hello world" "approved" 0 0,
              mkC 2 "hello world" "approved" 0 0, mkC 3 "hello world" "hidden" 0 0,
              mkC 4 "hello world" "approved" 0 0,
              mkC 5 "hello world" "pending_review" 0 0,
              mkC 6 "hello world" "approved" 0 0] [1] 7)).db ∧
      (detect_spam simOne "hello world" 1 1
          (create_comment simOne "hello world" 1 1
            (ModState.mk [mkC 1 "hello world" "approved" 0 0,
              mkC 2 "hello world" "approved" 0 0, mkC 3 "hello world" "hidden" 0 0,
              mkC 4 "hello world" "approved" 0 0,
              mkC 5 "hello world" "pending_review" 0 0,
              mkC 6 "hello world" "approved" 0 0] [1] 7)).db).action = "auto_hide" :=
  c10_nondeleted_monotone simOne "hello world" 1 1
    (ModState.mk [mkC 1 "hello world" "approved" 0 0, mkC 2 "hello world" "approved" 0 0,
      mkC 3 "hello world" "hidden" 0 0, mkC 4 "hello world" "approved" 0 0,
      mkC 5 "hello world" "pending_review" 0 0, mkC 6 "hello world" "approved" 0 0]
      [1] 7)
    (by decide) (by decide) (by decide) (by decide) (by decide)

end Moderation
